import Mathlib

/-!
Shallow embedding of `tools/deploy-test-flow.py`: a script that reads a JSON
flow file, deploys it to a Node-RED instance over HTTP, and prints a status
summary.  HTTP responses and the file system are modelled as environment
parameters; Python exceptions are modelled with `Except` / explicit outcome
types; console output is modelled as a list of printed lines.
-/

set_option autoImplicit false

namespace QuantFlow

/-- A single apostrophe character, used when rendering Python `repr` text. -/
def sQuote : String := String.singleton (Char.ofNat 39)

/-- JSON values, as produced by Python's `json` module (numbers restricted to
integers; none of the script's behaviour depends on non-integer numerics). -/
inductive Json where
  | null
  | bool (b : Bool)
  | num (n : Int)
  | str (s : String)
  | arr (elems : List Json)
  | obj (fields : List (String × Json))

/-- First-match association-list lookup, modelling Python `dict` access
(parsed JSON dictionaries have unique keys). -/
def lookupKV (kvs : List (String × Json)) (k : String) : Option Json :=
  match kvs with
  | [] => none
  | (k2, v) :: rest => if k2 = k then some v else lookupKV rest k

/-- Python truthiness (`if x:`) of a JSON-decoded value. -/
def truthy : Json → Bool
  | .null => false
  | .bool b => b
  | .num n => n != 0
  | .str s => s != ""
  | .arr elems => !elems.isEmpty
  | .obj fields => !fields.isEmpty

/-- Python `d.get(k)`: `AttributeError` when the receiver is not a dict,
otherwise the value under `k` (or `None`, modelled as `Option.none`). -/
def pyGet (j : Json) (k : String) : Except String (Option Json) :=
  match j with
  | .obj kvs => .ok (lookupKV kvs k)
  | _ => .error "AttributeError: object has no attribute get"

/-- Python `len`: defined for sequences and mappings, `TypeError` otherwise. -/
def pyLen : Json → Except String Nat
  | .arr elems => .ok elems.length
  | .str s => .ok s.length
  | .obj fields => .ok fields.length
  | _ => .error "TypeError: object has no len"

/-- Python iteration (`for x in j`): lists yield elements, strings yield
one-character strings, dicts yield their keys; `TypeError` otherwise. -/
def pyIter : Json → Except String (List Json)
  | .arr elems => .ok elems
  | .str s => .ok (s.toList.map fun c => .str (String.singleton c))
  | .obj fields => .ok (fields.map fun kv => .str kv.1)
  | _ => .error "TypeError: object is not iterable"

mutual

/-- Python `repr` of a JSON-decoded value (string escaping elided: the
script only ever renders flat strings and numbers). -/
def pyRepr : Json → String
  | .null => "None"
  | .bool b => if b then "True" else "False"
  | .num n => toString n
  | .str s => sQuote ++ s ++ sQuote
  | .arr elems => "[" ++ pyReprArr elems ++ "]"
  | .obj fields => "\x7b" ++ pyReprObj fields ++ "\x7d"

/-- Comma-separated `repr` of list elements. -/
def pyReprArr : List Json → String
  | [] => ""
  | [x] => pyRepr x
  | x :: rest => pyRepr x ++ ", " ++ pyReprArr rest

/-- Comma-separated `repr` of dict entries. -/
def pyReprObj : List (String × Json) → String
  | [] => ""
  | [(k, v)] => sQuote ++ k ++ sQuote ++ ": " ++ pyRepr v
  | (k, v) :: rest => sQuote ++ k ++ sQuote ++ ": " ++ pyRepr v ++ ", " ++ pyReprObj rest

end

/-- Python `str` (f-string interpolation) of a JSON-decoded value. -/
def pyStr : Json → String
  | .str s => s
  | j => pyRepr j

/-- An HTTP response as seen through the `requests` library: status code,
the result of calling `.json()` on it (which raises when the body is not
valid JSON), and the raw `.text`. -/
structure HttpResp where
  status : Nat
  jsonBody : Except String Json
  text : String

/-- The environment `deploy_flow` runs against: the result of reading and
parsing `test-flow.json` (`open` + `json.load`, which may raise), the result
of `requests.get` on the flows endpoint (which may raise), and the result of
`requests.post` as a function of the posted payload. -/
structure DeployEnv where
  file : Except String Json
  get : Except String HttpResp
  post : Json → Except String HttpResp

/-- Extracting the revision token from the GET response: only a 200 status is
inspected; `.json()` may raise, and `.get('rev')` raises on a non-dict body. -/
def revStep (resp : HttpResp) : Except String (Option Json) :=
  if resp.status = 200 then
    match resp.jsonBody with
    | .error e => .error e
    | .ok body => pyGet body "rev"
  else
    .ok none

/-- The deploy payload: `{"flows": nodes}`, plus `"rev"` when the fetched
revision is truthy (`if revision:`). -/
def mkPayload (nodes : Json) (revision : Option Json) : Json :=
  match revision with
  | some v => if truthy v then .obj [("flows", nodes), ("rev", v)] else .obj [("flows", nodes)]
  | none => .obj [("flows", nodes)]

/-- Outcome of the `try` block in `deploy_flow`: either an exception was
raised inside it (recording whether a POST had been issued by then and with
what payload), or it ran to the end with a success flag and printed lines. -/
inductive TryOutcome where
  | raisedEx (msg : String) (posted : Option Json)
  | done (success : Bool) (output : List String) (posted : Json)

/-- The body of the `try` block of `deploy_flow`. -/
def tryDeploy (nodes : Json) (get : Except String HttpResp)
    (post : Json → Except String HttpResp) : TryOutcome :=
  match get with
  | .error e => .raisedEx e none
  | .ok resp =>
    match revStep resp with
    | .error e => .raisedEx e none
    | .ok revision =>
      let payload := mkPayload nodes revision
      match post payload with
      | .error e => .raisedEx e (some payload)
      | .ok resp2 =>
        if resp2.status = 200 then
          .done true ["Flow deployed successfully!"] payload
        else
          .done false ["Failed to deploy flow: " ++ toString resp2.status, resp2.text] payload

/-- What `deploy_flow` produced when it returned normally: its boolean
return value, the lines it printed, and the payload of the POST it issued
(`none` when control never reached `requests.post`). -/
structure DeployResult where
  result : Bool
  output : List String
  posted : Option Json

/-- Outcome of calling a Python function: a normal return or a propagated
exception. -/
inductive PyOutcome (α : Type) where
  | ok (a : α)
  | raised (msg : String)

/-- Function `deploy_flow`: the file is read and parsed before the `try` block, so an
exception there propagates to the caller; exceptions inside the `try` block
are caught and converted to a `False` return with an error line printed. -/
def deploy_flow (env : DeployEnv) : PyOutcome DeployResult :=
  match env.file with
  | .error e => .raised e
  | .ok nodes =>
    .ok <|
      match tryDeploy nodes env.get env.post with
      | .raisedEx msg posted =>
        ⟨false, ["Error deploying flow: " ++ msg], posted⟩
      | .done success output posted => ⟨success, output, some posted⟩

/-- Python comparison `node.get('type') == 'tab'`: true only when the
looked-up value is the given string (comparing `None` or a non-string to a
string is simply `False` in Python). -/
def jsonEqStr (v : Option Json) (t : String) : Bool :=
  match v with
  | some (.str s) => s == t
  | _ => false

/-- The body of the per-node loop in `get_flow_status`: a tab descriptor
prints its label (default `"Unnamed"`), otherwise a descriptor with a
`name` key prints name and type — where `node['type']` raises `KeyError`
when the key is absent, and `node.get` raises on a non-dict node. -/
def statusLines (node : Json) : Except String (List String) :=
  match node with
  | .obj kvs =>
    if jsonEqStr (lookupKV kvs "type") "tab" then
      .ok ["Flow tab: " ++ pyStr ((lookupKV kvs "label").getD (.str "Unnamed"))]
    else
      match lookupKV kvs "name" with
      | some nm =>
        match lookupKV kvs "type" with
        | some ty => .ok ["Node: " ++ pyStr nm ++ " (Type: " ++ pyStr ty ++ ")"]
        | none => .error (sQuote ++ "type" ++ sQuote)
      | none => .ok []
  | _ => .error "AttributeError: object has no attribute get"

/-- Runs the loop over the flow descriptors, accumulating printed lines
until an exception cuts it short. -/
def loopNodes : List Json → List String × Option String
  | [] => ([], none)
  | node :: rest =>
    match statusLines node with
    | .error e => ([], some e)
    | .ok lines =>
      let (tail, exc) := loopNodes rest
      (lines ++ tail, exc)

/-- Function `get_flow_status`: issues the GET (given as the environment), prints the
node count and per-descriptor summary on a 200 response, prints the status
code on any other response, and converts every exception into a `False`
return with an error line.  Returns the boolean result and the printed
lines. -/
def get_flow_status (get : Except String HttpResp) : Bool × List String :=
  match get with
  | .error e => (false, ["Error getting flow status: " ++ e])
  | .ok resp =>
    if resp.status = 200 then
      match resp.jsonBody with
      | .error e => (false, ["Error getting flow status: " ++ e])
      | .ok body =>
        match pyGet body "flows" with
        | .error e => (false, ["Error getting flow status: " ++ e])
        | .ok flowsOpt =>
          let flows := flowsOpt.getD (.arr [])
          match pyLen flows with
          | .error e => (false, ["Error getting flow status: " ++ e])
          | .ok n =>
            let countLine := "Number of nodes: " ++ toString n
            match pyIter flows with
            | .error e => (false, [countLine, "Error getting flow status: " ++ e])
            | .ok nodes =>
              match loopNodes nodes with
              | (lines, some e) =>
                (false, countLine :: lines ++ ["Error getting flow status: " ++ e])
              | (lines, none) => (true, countLine :: lines)
    else
      (false, ["Failed to get flows: " ++ toString resp.status])

/-- Observable trace of a run of the `__main__` block: the printed lines, how
many times each operation was called, and the total seconds slept. -/
structure MainTrace where
  output : List String
  deployCalls : Nat
  statusCalls : Nat
  sleptSeconds : Nat

/-- Outcome of the `__main__` block: it either runs to completion or crashes
with an uncaught exception, in both cases leaving a trace. -/
inductive MainResult where
  | completed (t : MainTrace)
  | crashed (msg : String) (t : MainTrace)

/-- The trace left behind by a main run, completed or crashed. -/
def MainResult.trace : MainResult → MainTrace
  | .completed t => t
  | .crashed _ t => t

/-- The completion banner printed after the status check (the first line
starts with the newline of `print("\n...")`). -/
def completionBanner : List String :=
  ["\nFlow deployed successfully! You can now view the results in Node-RED"
      ++ sQuote ++ "s debug panel.",
    "Access Node-RED at: http://localhost:1880",
    "Make sure to click the " ++ sQuote ++ "Deploy" ++ sQuote
      ++ " button in the Node-RED UI to activate the flow."]

/-- The `__main__` block: start banner, one `deploy_flow` call; on a `True`
return, a 5-second sleep, one `get_flow_status` call (its boolean ignored)
and the completion banner; on a `False` return, the failure banner; an
exception out of `deploy_flow` crashes the script. -/
def mainRun (env : DeployEnv) (statusGet : Except String HttpResp) : MainResult :=
  let banner := ["Deploying test flow to Node-RED..."]
  match deploy_flow env with
  | .raised e => .crashed e ⟨banner, 1, 0, 0⟩
  | .ok r =>
    if r.result then
      let s := get_flow_status statusGet
      .completed ⟨banner ++ r.output
          ++ ["Waiting for flow to initialize...", "Checking flow status..."]
          ++ s.2 ++ completionBanner, 1, 1, 5⟩
    else
      .completed ⟨banner ++ r.output ++ ["Failed to deploy flow."], 1, 0, 0⟩

/-- Spec-side description of the lines printed for one descriptor, written
from the specification text: a `"tab"`-typed descriptor yields its label
line (label defaulting to `"Unnamed"`), otherwise a descriptor carrying a
`name` (and its `type`) yields a node line, and anything else yields
nothing.  Used to compare `get_flow_status` against the specification. -/
def specDescLines (n : Json) : List String :=
  match n with
  | .obj kvs =>
    if jsonEqStr (lookupKV kvs "type") "tab" then
      ["Flow tab: " ++ pyStr ((lookupKV kvs "label").getD (.str "Unnamed"))]
    else
      match lookupKV kvs "name", lookupKV kvs "type" with
      | some nm, some ty => ["Node: " ++ pyStr nm ++ " (Type: " ++ pyStr ty ++ ")"]
      | _, _ => []
  | _ => []

/-- A descriptor the summary loop can process without raising: a dict that
has a `type` key whenever it has a `name` key. -/
def wfNode (n : Json) : Bool :=
  match n with
  | .obj kvs => !(lookupKV kvs "name").isSome || (lookupKV kvs "type").isSome
  | _ => false

/-- Whether `get_flow_status` completes its 200 success path on the given
GET result: a 200 response, a JSON body, and a summary printed without an
exception. -/
def statusSuccessPath (get : Except String HttpResp) : Bool :=
  match get with
  | .error _ => false
  | .ok resp =>
    if resp.status = 200 then
      match resp.jsonBody with
      | .error _ => false
      | .ok body =>
        match pyGet body "flows" with
        | .error _ => false
        | .ok flowsOpt =>
          let flows := flowsOpt.getD (.arr [])
          match pyLen flows with
          | .error _ => false
          | .ok _ =>
            match pyIter flows with
            | .error _ => false
            | .ok nodes => (loopNodes nodes).2.isNone
    else false

/-- Whether a JSON value is a dict containing the given key. -/
def hasKey (j : Json) (k : String) : Bool :=
  match j with
  | .obj kvs => (lookupKV kvs k).isSome
  | _ => false

/-! Concrete environments used to exercise the theorems below. -/

/-- A flow file consisting of one inject node. -/
def sampleNodes : Json := .arr [.obj [("id", .str "n1"), ("type", .str "inject")]]

/-- A tab descriptor labelled `Main`. -/
def tabMain : Json := .obj [("type", .str "tab"), ("label", .str "Main")]

/-- An inject descriptor named `trigger1`. -/
def injectTrigger : Json := .obj [("type", .str "inject"), ("name", .str "trigger1")]

/-- Environment where opening `test-flow.json` raises. -/
def c1envMissing : DeployEnv :=
  ⟨.error "FileNotFoundError: test-flow.json", .ok ⟨200, .ok (.obj []), ""⟩,
    fun _ => .ok ⟨200, .ok .null, ""⟩⟩

/-- Environment where `json.load` on the flow file raises. -/
def c1envMalformed : DeployEnv :=
  ⟨.error "JSONDecodeError: Expecting value: line 1 column 1",
    .ok ⟨200, .ok (.obj []), ""⟩, fun _ => .ok ⟨200, .ok .null, ""⟩⟩

/-- Environment where the file is fine but both requests raise. -/
def c1envNetDown : DeployEnv :=
  ⟨.ok sampleNodes, .error "ConnectionError: connection refused",
    fun _ => .error "ConnectionError: connection refused"⟩

/-- Environment where the file and the GET are fine but the POST raises. -/
def c1envPostDown : DeployEnv :=
  ⟨.ok sampleNodes, .ok ⟨503, .ok .null, "busy"⟩,
    fun _ => .error "ReadTimeout: timed out"⟩

/-- Environment with a well-formed file, a GET answering `rev: "abc"`, and a
POST answering 200. -/
def c2env : DeployEnv :=
  ⟨.ok sampleNodes, .ok ⟨200, .ok (.obj [("rev", .str "abc")]), ""⟩,
    fun _ => .ok ⟨200, .ok .null, ""⟩⟩

/-- Environment whose GET answers 503. -/
def c3env : DeployEnv :=
  ⟨.ok sampleNodes, .ok ⟨503, .ok .null, "busy"⟩, fun _ => .ok ⟨200, .ok .null, ""⟩⟩

/-- Environment whose POST answers 500. -/
def c4env : DeployEnv :=
  ⟨.ok sampleNodes, .ok ⟨200, .ok (.obj [("rev", .str "abc")]), ""⟩,
    fun _ => .ok ⟨500, .ok .null, "Internal Server Error"⟩⟩

/-- A 200 GET response whose flows list holds a descriptor with a `name`
but no `type`. -/
def c5badResp : HttpResp :=
  ⟨200, .ok (.obj [("flows", .arr [.obj [("name", .str "x")]])]), ""⟩

/-- The body fields of the two-descriptor example response. -/
def c5kvs : List (String × Json) := [("flows", .arr [tabMain, injectTrigger])]

/-- Environment whose deploy fails at the POST (used for the orchestration
claims). -/
def c7envFail : DeployEnv :=
  ⟨.ok sampleNodes, .ok ⟨404, .ok .null, ""⟩, fun _ => .ok ⟨500, .ok .null, "boom"⟩⟩

/-- Environment whose deploy succeeds end to end. -/
def c7envOk : DeployEnv :=
  ⟨.ok sampleNodes, .ok ⟨200, .ok (.obj [("rev", .str "r1")]), ""⟩,
    fun _ => .ok ⟨200, .ok .null, ""⟩⟩

/-- Environment answering a truthy revision, used for the revision-tagging
claim. -/
def c8env : DeployEnv :=
  ⟨.ok (.arr []), .ok ⟨200, .ok (.obj [("rev", .str "abc")]), ""⟩,
    fun _ => .ok ⟨200, .ok .null, ""⟩⟩

/-- Environment whose GET answers 200 with a body that is not valid JSON. -/
def c9env : DeployEnv :=
  ⟨.ok sampleNodes, .ok ⟨200, .error "JSONDecodeError: Expecting value", ""⟩,
    fun _ => .ok ⟨200, .ok .null, ""⟩⟩

/-- The body fields of the response exercising the missing-`type` KeyError. -/
def c10kvs : List (String × Json) :=
  [("flows", .arr [tabMain, .obj [("name", .str "x")]])]

/-! Helper lemmas. -/

/-- On a well-formed descriptor the loop body raises nothing and prints the
lines the specification describes. -/
theorem statusLines_wf (n : Json) (h : wfNode n = true) :
    statusLines n = .ok (specDescLines n) := by
  cases n with
  | obj kvs =>
    cases ht : jsonEqStr (lookupKV kvs "type") "tab" with
    | true => simp [statusLines, specDescLines, ht]
    | false =>
      cases hn : lookupKV kvs "name" with
      | none => simp [statusLines, specDescLines, ht, hn]
      | some nm =>
        have h2 : (lookupKV kvs "type").isSome = true := by
          simpa [wfNode, hn] using h
        cases ht2 : lookupKV kvs "type" with
        | none => rw [ht2] at h2; simp at h2
        | some ty =>
          rw [ht2] at ht
          simp [statusLines, specDescLines, ht, hn, ht2]
  | null => simp [wfNode] at h
  | bool b => simp [wfNode] at h
  | num k => simp [wfNode] at h
  | str s => simp [wfNode] at h
  | arr xs => simp [wfNode] at h

/-- On a list of well-formed descriptors the loop completes and prints the
spec-described lines of each descriptor in order. -/
theorem loopNodes_wf (l : List Json) (h : ∀ n ∈ l, wfNode n = true) :
    loopNodes l = (l.flatMap specDescLines, none) := by
  induction l with
  | nil => rfl
  | cons x xs ih =>
    have hx := h x (List.mem_cons_self x xs)
    have hrest := ih fun n hn => h n (List.mem_cons_of_mem x hn)
    simp [loopNodes, statusLines_wf x hx, hrest]

/-- When the loop body raises on some descriptor, the loop stops there,
keeping the lines of the earlier (well-formed) descriptors. -/
theorem loopNodes_cut (pre : List Json) (bad : Json) (rest : List Json) (e : String)
    (hpre : ∀ n ∈ pre, wfNode n = true) (hbad : statusLines bad = .error e) :
    loopNodes (pre ++ bad :: rest) = (pre.flatMap specDescLines, some e) := by
  induction pre with
  | nil => simp [loopNodes, hbad]
  | cons x xs ih =>
    have hx := hpre x (List.mem_cons_self x xs)
    have hrest := ih fun n hn => hpre n (List.mem_cons_of_mem x hn)
    simp [loopNodes, statusLines_wf x hx, hrest]

/-- Unfolding of `get_flow_status` on a 200 response with a dict body whose
flows field (defaulted) is a list. -/
theorem get_flow_status_200_arr (kvs : List (String × Json)) (t : String)
    (l : List Json) (hf : (lookupKV kvs "flows").getD (.arr []) = .arr l) :
    get_flow_status (.ok ⟨200, .ok (.obj kvs), t⟩) =
      match loopNodes l with
      | (lines, some e) =>
        (false, ("Number of nodes: " ++ toString l.length)
          :: (lines ++ ["Error getting flow status: " ++ e]))
      | (lines, none) =>
        (true, ("Number of nodes: " ++ toString l.length) :: lines) := by
  simp only [get_flow_status, pyGet, hf, pyLen, pyIter]
  rcases hln : loopNodes l with ⟨lines, exc⟩
  cases exc <;> simp

/-- The payload carries a `rev` key exactly when a truthy revision value
was obtained. -/
theorem hasKey_mkPayload (nodes : Json) (rv : Option Json) :
    hasKey (mkPayload nodes rv) "rev" = true ↔ ∃ v, rv = some v ∧ truthy v = true := by
  cases rv with
  | none =>
    constructor
    · intro h
      rw [show hasKey (mkPayload nodes none) "rev" = false from rfl] at h
      exact Bool.noConfusion h
    · rintro ⟨v, hv, -⟩
      exact Option.noConfusion hv
  | some v =>
    cases ht : truthy v with
    | true =>
      have hpl : mkPayload nodes (some v) = .obj [("flows", nodes), ("rev", v)] := by
        simp [mkPayload, ht]
      rw [hpl]
      exact ⟨fun _ => ⟨v, rfl, ht⟩, fun _ => rfl⟩
    | false =>
      have hpl : mkPayload nodes (some v) = .obj [("flows", nodes)] := by
        simp [mkPayload, ht]
      rw [hpl]
      constructor
      · intro h
        rw [show hasKey (Json.obj [("flows", nodes)]) "rev" = false from rfl] at h
        exact Bool.noConfusion h
      · rintro ⟨v2, hv2, htv2⟩
        injection hv2 with hh
        subst hh
        rw [ht] at htv2
        exact Bool.noConfusion htv2

/-- The revision step yields a truthy revision exactly when the GET
answered 200 with a JSON body whose `rev` field is present and truthy. -/
theorem revStep_truthy (gresp : HttpResp) (rv : Option Json)
    (h : revStep gresp = .ok rv) :
    (∃ v, rv = some v ∧ truthy v = true) ↔
      (gresp.status = 200 ∧ ∃ body v, gresp.jsonBody = .ok body ∧
        pyGet body "rev" = .ok (some v) ∧ truthy v = true) := by
  by_cases hs : gresp.status = 200
  · rcases hb : gresp.jsonBody with e | body
    · simp [revStep, hs, hb] at h
    · rw [revStep, if_pos hs, hb] at h
      have h2 : pyGet body "rev" = Except.ok rv := h
      constructor
      · rintro ⟨v, rfl, ht⟩
        exact ⟨hs, body, v, rfl, h2, ht⟩
      · rintro ⟨-, body2, v, hb2, hpg, ht⟩
        injection hb2 with hh
        subst hh
        rw [hpg] at h2
        injection h2 with hh2
        exact ⟨v, hh2.symm, ht⟩
  · have h0 : rv = none := by
      rw [revStep, if_neg hs] at h
      injection h with hh
      exact hh.symm
    subst h0
    constructor
    · rintro ⟨v, hv, -⟩
      exact Option.noConfusion hv
    · rintro ⟨h200, -⟩
      exact absurd h200 hs

/-! Claim theorems. -/

/-- C5, counterexample: a 200 GET response with a JSON body on which
`get_flow_status` returns `false`, refuting the claim that every 200
response with a JSON body yields a `true` return — a descriptor with a
`name` but no `type` makes the node line raise `KeyError`. -/
theorem c5_counterexample :
    c5badResp.status = 200 ∧ (∃ b, c5badResp.jsonBody = .ok b) ∧
      (get_flow_status (.ok c5badResp)).1 = false :=
  ⟨rfl, ⟨.obj [("flows", .arr [.obj [("name", .str "x")]])], rfl⟩, rfl⟩

/-- C5, amended: for every GET response with status 200 and a JSON dict body
whose `flows` field (defaulting to an empty list) is a list of descriptors,
each of which is a dict having a `type` field whenever it has a `name`
field, `get_flow_status` returns `true` and prints the node count followed
by, for each descriptor in order, a tab line with its label (default
`"Unnamed"`) when its type equals `"tab"`, else a node line with its name
and type when it has a `name` field, else nothing. -/
theorem c5_status_summary (kvs : List (String × Json)) (t : String)
    (l : List Json) (hf : (lookupKV kvs "flows").getD (.arr []) = .arr l)
    (hwf : ∀ n ∈ l, wfNode n = true) :
    get_flow_status (.ok ⟨200, .ok (.obj kvs), t⟩) =
      (true, ("Number of nodes: " ++ toString l.length) :: l.flatMap specDescLines) := by
  rw [get_flow_status_200_arr kvs t l hf, loopNodes_wf l hwf]

/-- C5, witness: on the two-descriptor example list the summary is the count
line, the tab line for `Main` and the node line for `trigger1`. -/
theorem c5_status_summary_witness :
    get_flow_status (.ok ⟨200, .ok (.obj c5kvs), ""⟩) =
      (true, ["Number of nodes: 2", "Flow tab: Main", "Node: trigger1 (Type: inject)"]) := by
  have h := c5_status_summary c5kvs "" [tabMain, injectTrigger] rfl (by
    intro n hn
    rcases List.mem_cons.mp hn with rfl | hn2
    · rfl
    · rcases List.mem_cons.mp hn2 with rfl | hn3
      · rfl
      · exact absurd hn3 (List.not_mem_nil n))
  exact h.trans rfl

/-- C10: with a 200 response whose flows list reaches a descriptor that has
a `name` but no `type`, the node line raises a `KeyError`, which is caught:
the error message is printed, `false` is returned, and the summary is cut
short at that descriptor (count line and earlier descriptors printed). -/
theorem c10_keyerror (kvs : List (String × Json)) (t : String)
    (pre rest : List Json) (bkvs : List (String × Json))
    (hf : (lookupKV kvs "flows").getD (.arr []) = .arr (pre ++ .obj bkvs :: rest))
    (hpre : ∀ n ∈ pre, wfNode n = true)
    (hname : (lookupKV bkvs "name").isSome = true)
    (htype : lookupKV bkvs "type" = none) :
    get_flow_status (.ok ⟨200, .ok (.obj kvs), t⟩) =
      (false, ("Number of nodes: " ++ toString (pre ++ Json.obj bkvs :: rest).length)
        :: (pre.flatMap specDescLines
            ++ ["Error getting flow status: " ++ (sQuote ++ "type" ++ sQuote)])) := by
  have hbad : statusLines (.obj bkvs) = .error (sQuote ++ "type" ++ sQuote) := by
    rcases hn : lookupKV bkvs "name" with _ | nm
    · rw [hn] at hname; simp at hname
    · simp [statusLines, jsonEqStr, hn, htype]
  rw [get_flow_status_200_arr kvs t _ hf,
    loopNodes_cut pre (.obj bkvs) rest (sQuote ++ "type" ++ sQuote) hpre hbad]

/-- C10, witness: the tab descriptor prints, then the name-without-type
descriptor cuts the summary short with the `KeyError` message. -/
theorem c10_keyerror_witness :
    get_flow_status (.ok ⟨200, .ok (.obj c10kvs), ""⟩) =
      (false, ["Number of nodes: 2", "Flow tab: Main",
        "Error getting flow status: " ++ (sQuote ++ "type" ++ sQuote)]) := by
  have h := c10_keyerror c10kvs "" [tabMain] [] [("name", .str "x")] rfl
    (by
      intro n hn
      rcases List.mem_cons.mp hn with rfl | hn2
      · rfl
      · exact absurd hn2 (List.not_mem_nil n))
    rfl rfl
  exact h.trans rfl

/-- C6: `get_flow_status` never raises (it is a total function of the GET
result): a non-200 response prints the status code and returns `false`, a
raising GET or a non-JSON body prints the error message and returns
`false`, and the return value is `true` exactly when the 200 success path
completes. -/
theorem c6_status_failure :
    (∀ resp : HttpResp, resp.status ≠ 200 →
      get_flow_status (.ok resp) = (false, ["Failed to get flows: " ++ toString resp.status]))
    ∧ (∀ e : String,
      get_flow_status (.error e) = (false, ["Error getting flow status: " ++ e]))
    ∧ (∀ (resp : HttpResp) (e : String), resp.status = 200 → resp.jsonBody = .error e →
      get_flow_status (.ok resp) = (false, ["Error getting flow status: " ++ e]))
    ∧ (∀ g : Except String HttpResp,
      (get_flow_status g).1 = true ↔ statusSuccessPath g = true) := by
  refine ⟨?_, ?_, ?_, ?_⟩
  · intro resp h
    simp [get_flow_status, h]
  · intro e
    rfl
  · intro resp e h1 h2
    simp [get_flow_status, h1, h2]
  · intro g
    rcases g with e | resp
    · simp [get_flow_status, statusSuccessPath]
    · rcases resp with ⟨st, jb, tx⟩
      by_cases hs : st = 200
      · subst hs
        rcases jb with e | body
        · simp [get_flow_status, statusSuccessPath]
        · rcases hpg : pyGet body "flows" with e | fo
          · simp [get_flow_status, statusSuccessPath, hpg]
          · rcases hpl : pyLen (fo.getD (.arr [])) with e | n
            · simp [get_flow_status, statusSuccessPath, hpg, hpl]
            · rcases hpi : pyIter (fo.getD (.arr [])) with e | nodes
              · simp [get_flow_status, statusSuccessPath, hpg, hpl, hpi]
              · rcases hln : loopNodes nodes with ⟨lines, exc⟩
                cases exc with
                | none => simp [get_flow_status, statusSuccessPath, hpg, hpl, hpi, hln]
                | some e => simp [get_flow_status, statusSuccessPath, hpg, hpl, hpi, hln]
      · simp [get_flow_status, statusSuccessPath, hs]

/-- C6, witness: a 404 GET, a raising GET, and a 200 GET with a non-JSON
body all return `false` with the corresponding diagnostic line. -/
theorem c6_status_failure_witness :
    get_flow_status (.ok ⟨404, .ok .null, ""⟩) = (false, ["Failed to get flows: 404"])
    ∧ get_flow_status (.error "ConnectionError: connection refused")
        = (false, ["Error getting flow status: ConnectionError: connection refused"])
    ∧ get_flow_status (.ok ⟨200, .error "JSONDecodeError: Expecting value", ""⟩)
        = (false, ["Error getting flow status: JSONDecodeError: Expecting value"]) :=
  ⟨c6_status_failure.1 ⟨404, .ok .null, ""⟩ (by decide),
    c6_status_failure.2.1 "ConnectionError: connection refused",
    c6_status_failure.2.2.1 ⟨200, .error "JSONDecodeError: Expecting value", ""⟩
      "JSONDecodeError: Expecting value" rfl rfl⟩

/-- C1, counterexample: the file read and `json.load` happen before the
`try` block, so with a missing flow file `deploy_flow` raises to its caller
instead of returning `false`, refuting the claim that every exception of
the deploy sequence is caught inside `deploy_flow`. -/
theorem c1_counterexample :
    deploy_flow c1envMissing = .raised "FileNotFoundError: test-flow.json"
      ∧ ∀ r, deploy_flow c1envMissing ≠ .ok r :=
  ⟨rfl, fun r h => by simp [deploy_flow, c1envMissing] at h⟩

/-- C1, amended: exceptions raised after the file is read — during the GET,
the parsing of its body, or the POST — are caught inside `deploy_flow` and
converted into a `false` return with the error printed (no exception
propagates once the file is read), but an exception while reading or
parsing the flow file itself (missing, unreadable, or malformed file)
propagates to the caller. -/
theorem c1_exception_boundary :
    (∀ (env : DeployEnv) (nodes : Json), env.file = .ok nodes →
      ∃ r, deploy_flow env = .ok r)
    ∧ (∀ (env : DeployEnv) (nodes : Json) (e : String) (posted : Option Json),
      env.file = .ok nodes →
      tryDeploy nodes env.get env.post = .raisedEx e posted →
      deploy_flow env = .ok ⟨false, ["Error deploying flow: " ++ e], posted⟩)
    ∧ (∀ (env : DeployEnv) (e : String), env.file = .error e →
      deploy_flow env = .raised e) := by
  refine ⟨?_, ?_, ?_⟩
  · intro env nodes h
    refine ⟨(match tryDeploy nodes env.get env.post with
      | .raisedEx msg posted => ⟨false, ["Error deploying flow: " ++ msg], posted⟩
      | .done success output posted => ⟨success, output, some posted⟩), ?_⟩
    simp [deploy_flow, h]
  · intro env nodes e posted h htry
    simp [deploy_flow, h, htry]
  · intro env e h
    simp [deploy_flow, h]

/-- C1, witness: a raising GET and a raising POST are both converted into a
`false` return with the error printed; an unreadable or malformed file
raises to the caller. -/
theorem c1_exception_boundary_witness :
    (∃ r, deploy_flow c1envNetDown = .ok r)
      ∧ deploy_flow c1envNetDown = .ok ⟨false,
          ["Error deploying flow: ConnectionError: connection refused"], none⟩
      ∧ deploy_flow c1envPostDown = .ok ⟨false,
          ["Error deploying flow: ReadTimeout: timed out"],
          some (.obj [("flows", sampleNodes)])⟩
      ∧ deploy_flow c1envMalformed
          = .raised "JSONDecodeError: Expecting value: line 1 column 1" :=
  ⟨c1_exception_boundary.1 c1envNetDown sampleNodes rfl,
    c1_exception_boundary.2.1 c1envNetDown sampleNodes
      "ConnectionError: connection refused" none rfl rfl,
    c1_exception_boundary.2.1 c1envPostDown sampleNodes
      "ReadTimeout: timed out" (some (.obj [("flows", sampleNodes)])) rfl rfl,
    c1_exception_boundary.2.2 c1envMalformed
      "JSONDecodeError: Expecting value: line 1 column 1" rfl⟩

/-- C2: with a well-formed flow file, a GET answering 200 with a dict body
whose `rev` field is `"abc"`, and a POST answering 200, `deploy_flow`
returns `true` and the posted JSON body is exactly
`{"flows": <file contents>, "rev": "abc"}`. -/
theorem c2_deploy_success (env : DeployEnv) (nodes : Json)
    (kvs : List (String × Json)) (t : String) (resp2 : HttpResp)
    (hfile : env.file = .ok nodes)
    (hget : env.get = .ok ⟨200, .ok (.obj kvs), t⟩)
    (hrev : lookupKV kvs "rev" = some (.str "abc"))
    (hpost : env.post (.obj [("flows", nodes), ("rev", .str "abc")]) = .ok resp2)
    (hstatus : resp2.status = 200) :
    deploy_flow env = .ok ⟨true, ["Flow deployed successfully!"],
      some (.obj [("flows", nodes), ("rev", .str "abc")])⟩ := by
  have hrs : revStep ⟨200, .ok (.obj kvs), t⟩ = .ok (some (.str "abc")) := by
    simp [revStep, pyGet, hrev]
  have hmk : mkPayload nodes (some (.str "abc"))
      = .obj [("flows", nodes), ("rev", .str "abc")] := rfl
  simp [deploy_flow, hfile, tryDeploy, hget, hrs, hmk, hpost, hstatus]

/-- C2, witness: the concrete sample environment deploys successfully with
the tagged payload. -/
theorem c2_deploy_success_witness :
    deploy_flow c2env = .ok ⟨true, ["Flow deployed successfully!"],
      some (.obj [("flows", sampleNodes), ("rev", .str "abc")])⟩ :=
  c2_deploy_success c2env sampleNodes [("rev", .str "abc")] "" ⟨200, .ok .null, ""⟩
    rfl rfl rfl rfl rfl

/-- C3: with a well-formed flow file and a GET answering any non-200
status, `deploy_flow` still issues the POST and the posted body is exactly
`{"flows": <file contents>}` with no `rev` key. -/
theorem c3_get_non200 (env : DeployEnv) (nodes : Json) (gresp : HttpResp)
    (hfile : env.file = .ok nodes) (hget : env.get = .ok gresp)
    (hstat : gresp.status ≠ 200) :
    ∃ r, deploy_flow env = .ok r ∧ r.posted = some (.obj [("flows", nodes)]) := by
  have hrs : revStep gresp = .ok none := by simp [revStep, hstat]
  rcases hp : env.post (Json.obj [("flows", nodes)]) with e | resp2
  · exact ⟨⟨false, ["Error deploying flow: " ++ e], some (.obj [("flows", nodes)])⟩,
      by simp [deploy_flow, hfile, tryDeploy, hget, hrs, hp, mkPayload], rfl⟩
  · by_cases h2 : resp2.status = 200
    · exact ⟨⟨true, ["Flow deployed successfully!"], some (.obj [("flows", nodes)])⟩,
        by simp [deploy_flow, hfile, tryDeploy, hget, hrs, hp, h2, mkPayload], rfl⟩
    · exact ⟨⟨false, ["Failed to deploy flow: " ++ toString resp2.status, resp2.text],
        some (.obj [("flows", nodes)])⟩,
        by simp [deploy_flow, hfile, tryDeploy, hget, hrs, hp, h2, mkPayload], rfl⟩

/-- C3, witness: with a 503 GET the POST is still issued with the untagged
payload. -/
theorem c3_get_non200_witness :
    ∃ r, deploy_flow c3env = .ok r ∧ r.posted = some (.obj [("flows", sampleNodes)]) :=
  c3_get_non200 c3env sampleNodes ⟨503, .ok .null, "busy"⟩ rfl rfl (by decide)

/-- C4: with a well-formed flow file, a GET whose revision step completes,
and a POST answering any non-200 status, `deploy_flow` returns `false`
(no exception escapes) and prints the status code and the response body. -/
theorem c4_post_non200 (env : DeployEnv) (nodes : Json) (gresp : HttpResp)
    (rv : Option Json) (presp : HttpResp)
    (hfile : env.file = .ok nodes) (hget : env.get = .ok gresp)
    (hrs : revStep gresp = .ok rv)
    (hpost : env.post (mkPayload nodes rv) = .ok presp)
    (hstat : presp.status ≠ 200) :
    deploy_flow env = .ok ⟨false,
      ["Failed to deploy flow: " ++ toString presp.status, presp.text],
      some (mkPayload nodes rv)⟩ := by
  simp [deploy_flow, hfile, tryDeploy, hget, hrs, hpost, hstat]

/-- C4, witness: a 500 POST yields a `false` return with the status code
and body printed. -/
theorem c4_post_non200_witness :
    deploy_flow c4env = .ok ⟨false,
      ["Failed to deploy flow: 500", "Internal Server Error"],
      some (.obj [("flows", sampleNodes), ("rev", .str "abc")])⟩ :=
  c4_post_non200 c4env sampleNodes ⟨200, .ok (.obj [("rev", .str "abc")]), ""⟩
    (some (.str "abc")) ⟨500, .ok .null, "Internal Server Error"⟩
    rfl rfl rfl rfl (by decide)

/-- C9: a GET answering 200 with a body that is not valid JSON makes
`response.json()` raise; the exception aborts the whole deploy —
`deploy_flow` returns `false` and no POST is ever issued. -/
theorem c9_get_badjson (env : DeployEnv) (nodes : Json) (gresp : HttpResp)
    (e : String) (hfile : env.file = .ok nodes) (hget : env.get = .ok gresp)
    (hstat : gresp.status = 200) (hbody : gresp.jsonBody = .error e) :
    deploy_flow env = .ok ⟨false, ["Error deploying flow: " ++ e], none⟩ := by
  have hrs : revStep gresp = .error e := by simp [revStep, hstat, hbody]
  simp [deploy_flow, hfile, tryDeploy, hget, hrs]

/-- C9, witness: the concrete bad-JSON environment returns `false` with no
POST issued. -/
theorem c9_get_badjson_witness :
    deploy_flow c9env = .ok ⟨false,
      ["Error deploying flow: JSONDecodeError: Expecting value"], none⟩ :=
  c9_get_badjson c9env sampleNodes ⟨200, .error "JSONDecodeError: Expecting value", ""⟩
    "JSONDecodeError: Expecting value" rfl rfl rfl rfl

/-- C8: whenever `deploy_flow` reaches the POST, the posted body carries a
`rev` key if and only if the GET returned 200, its body parsed as JSON, and
that body's `rev` field is present and truthy — so a falsy revision value
(such as the empty string) is dropped exactly like an absent field. -/
theorem c8_rev_iff (env : DeployEnv) (nodes : Json) (r : DeployResult) (p : Json)
    (hfile : env.file = .ok nodes) (hdep : deploy_flow env = .ok r)
    (hp : r.posted = some p) :
    (hasKey p "rev" = true ↔
      ∃ gresp body v, env.get = .ok gresp ∧ gresp.status = 200 ∧
        gresp.jsonBody = .ok body ∧ pyGet body "rev" = .ok (some v) ∧
        truthy v = true) := by
  rcases hg : env.get with e | gresp
  · simp [deploy_flow, hfile, tryDeploy, hg] at hdep
    rw [← hdep] at hp
    simp at hp
  · rcases hrs : revStep gresp with e2 | rv
    · simp [deploy_flow, hfile, tryDeploy, hg, hrs] at hdep
      rw [← hdep] at hp
      simp at hp
    · have hpp : p = mkPayload nodes rv := by
        rcases hpo : env.post (mkPayload nodes rv) with e3 | resp2
        · simp [deploy_flow, hfile, tryDeploy, hg, hrs, hpo] at hdep
          rw [← hdep] at hp
          simp at hp
          exact hp.symm
        · by_cases h200 : resp2.status = 200
          · simp [deploy_flow, hfile, tryDeploy, hg, hrs, hpo, h200] at hdep
            rw [← hdep] at hp
            simp at hp
            exact hp.symm
          · simp [deploy_flow, hfile, tryDeploy, hg, hrs, hpo, h200] at hdep
            rw [← hdep] at hp
            simp at hp
            exact hp.symm
      rw [hpp, hasKey_mkPayload, revStep_truthy gresp rv hrs]
      constructor
      · rintro ⟨h200, body, v, hb, hpg, ht⟩
        exact ⟨gresp, body, v, rfl, h200, hb, hpg, ht⟩
      · rintro ⟨gresp2, body, v, hg2, h200, hb, hpg, ht⟩
        injection hg2 with hh
        subst hh
        exact ⟨h200, body, v, hb, hpg, ht⟩

/-- C8, witness: with a GET answering `rev: "abc"`, the posted payload
carries the `rev` key. -/
theorem c8_rev_iff_witness :
    hasKey (.obj [("flows", .arr []), ("rev", .str "abc")]) "rev" = true :=
  (c8_rev_iff c8env (.arr [])
    ⟨true, ["Flow deployed successfully!"],
      some (.obj [("flows", .arr []), ("rev", .str "abc")])⟩
    (.obj [("flows", .arr []), ("rev", .str "abc")]) rfl rfl rfl).mpr
    ⟨⟨200, .ok (.obj [("rev", .str "abc")]), ""⟩, .obj [("rev", .str "abc")],
      .str "abc", rfl, rfl, rfl, rfl, rfl⟩

/-- The last printed line of a run that ends with a fixed banner line. -/
theorem getLast?_cons_append_singleton (a f : String) (l : List String) :
    (a :: (l ++ [f])).getLast? = some f := by
  rw [show a :: (l ++ [f]) = (a :: l) ++ [f] by simp, List.getLast?_concat]

/-- C7: the entry point always prints the start banner first and calls
`deploy_flow` exactly once; it sleeps 5 seconds and calls `get_flow_status`
exactly once — and prints the access instructions — precisely when
`deploy_flow` returned `true` (regardless of `get_flow_status`'s result);
when `deploy_flow` returns `false` it prints the failure banner last and
neither sleeps nor queries the status. -/
theorem c7_main (env : DeployEnv) (sget : Except String HttpResp) :
    ((mainRun env sget).trace.deployCalls = 1)
    ∧ ((mainRun env sget).trace.output.head?
        = some "Deploying test flow to Node-RED...")
    ∧ ((∃ r, deploy_flow env = .ok r ∧ r.result = true) ↔
        ((mainRun env sget).trace.statusCalls = 1
          ∧ (mainRun env sget).trace.sleptSeconds = 5
          ∧ "Access Node-RED at: http://localhost:1880"
              ∈ (mainRun env sget).trace.output))
    ∧ (∀ r, deploy_flow env = .ok r → r.result = false →
        (mainRun env sget).trace.statusCalls = 0
          ∧ (mainRun env sget).trace.sleptSeconds = 0
          ∧ (mainRun env sget).trace.output.getLast?
              = some "Failed to deploy flow.") := by
  rcases hd : deploy_flow env with r | e
  · rcases hb : r.result with _ | _
    · have hm : mainRun env sget = .completed
          ⟨["Deploying test flow to Node-RED..."] ++ r.output
            ++ ["Failed to deploy flow."], 1, 0, 0⟩ := by
        simp [mainRun, hd, hb]
      refine ⟨by rw [hm]; rfl, by rw [hm]; rfl, ?_, ?_⟩
      · constructor
        · rintro ⟨r2, hd2, ht2⟩
          injection hd2 with hh
          subst hh
          rw [hb] at ht2
          exact Bool.noConfusion ht2
        · rintro ⟨h1, -, -⟩
          rw [hm] at h1
          exact absurd h1 (by simp [MainResult.trace])
      · intro r2 hd2 _
        refine ⟨by rw [hm]; rfl, by rw [hm]; rfl, ?_⟩
        rw [hm]
        exact getLast?_cons_append_singleton _ _ _
    · have hm : mainRun env sget = .completed
          ⟨["Deploying test flow to Node-RED..."] ++ r.output
            ++ ["Waiting for flow to initialize...", "Checking flow status..."]
            ++ (get_flow_status sget).2 ++ completionBanner, 1, 1, 5⟩ := by
        simp [mainRun, hd, hb]
      refine ⟨by rw [hm]; rfl, by rw [hm]; rfl, ?_, ?_⟩
      · refine ⟨fun _ => ⟨by rw [hm]; rfl, by rw [hm]; rfl, ?_⟩,
          fun _ => ⟨r, rfl, hb⟩⟩
        rw [hm]
        simp [MainResult.trace, completionBanner]
      · intro r2 hd2 hf2
        injection hd2 with hh
        subst hh
        rw [hb] at hf2
        exact Bool.noConfusion hf2
  · have hm : mainRun env sget = .crashed e
        ⟨["Deploying test flow to Node-RED..."], 1, 0, 0⟩ := by
      simp [mainRun, hd]
    refine ⟨by rw [hm]; rfl, by rw [hm]; rfl, ?_, ?_⟩
    · constructor
      · rintro ⟨r2, hd2, -⟩
        exact PyOutcome.noConfusion hd2
      · rintro ⟨h1, -, -⟩
        rw [hm] at h1
        exact absurd h1 (by simp [MainResult.trace])
    · intro r2 hd2 _
      exact PyOutcome.noConfusion hd2

/-- C7, witness: a failing deploy leaves the failure banner with no status
call or sleep; a succeeding deploy sleeps 5 seconds, queries the status
once and prints the access instructions. -/
theorem c7_main_witness :
    ((mainRun c7envFail (.ok ⟨404, .ok .null, ""⟩)).trace.statusCalls = 0
      ∧ (mainRun c7envFail (.ok ⟨404, .ok .null, ""⟩)).trace.sleptSeconds = 0
      ∧ (mainRun c7envFail (.ok ⟨404, .ok .null, ""⟩)).trace.output.getLast?
          = some "Failed to deploy flow.")
    ∧ ((mainRun c7envOk (.ok ⟨404, .ok .null, ""⟩)).trace.statusCalls = 1
      ∧ (mainRun c7envOk (.ok ⟨404, .ok .null, ""⟩)).trace.sleptSeconds = 5
      ∧ "Access Node-RED at: http://localhost:1880"
          ∈ (mainRun c7envOk (.ok ⟨404, .ok .null, ""⟩)).trace.output) :=
  ⟨(c7_main c7envFail (.ok ⟨404, .ok .null, ""⟩)).2.2.2
      ⟨false, ["Failed to deploy flow: 500", "boom"],
        some (.obj [("flows", sampleNodes)])⟩ rfl rfl,
    (c7_main c7envOk (.ok ⟨404, .ok .null, ""⟩)).2.2.1.mp
      ⟨⟨true, ["Flow deployed successfully!"],
        some (.obj [("flows", sampleNodes), ("rev", .str "r1")])⟩, rfl, rfl⟩⟩

end QuantFlow
